import Mathlib

/-!
Shallow embedding of `src/llmq/snapshot.cpp` (Dash Core, quorum rotation
info).  Pure data is embedded directly; the out-parameters `response` and
`errorRet` of `BuildQuorumRotationInfo` are threaded explicitly, and the
snapshot manager's mutable cache/DB pair is explicit state.  External
collaborators (chain index, diff builder, LLMQ parameters) are fields of an
environment record, matching the interfaces the C++ code consumes.
-/

namespace LlmqSnapshot

/-- A `CBlockIndex` as the algorithm observes it: a block hash (`uint256`,
modelled as `Nat`; `0` is the all-zero null hash) and the height `nHeight`
(`int` in C++, modelled as `Int`). -/
structure BlockRef where
  hash : Nat
  height : Int
deriving DecidableEq, Repr

/-- `CQuorumSnapshot`: active-member flags, skip-list mode, skip list. -/
structure CQuorumSnapshot where
  activeQuorumMembers : List Bool
  mnSkipListMode : Int
  mnSkipList : List Int
deriving DecidableEq, Repr

/-- A simplified MN-list diff.  Its payload is produced by the external
`BuildSimplifiedMNListDiff` and is opaque to `snapshot.cpp`; we record the
pair of block hashes it was requested for plus an opaque payload tag. -/
structure MnListDiff where
  baseBlockHash : Nat
  blockHash : Nat
  payload : Nat
deriving DecidableEq, Repr

/-- `CGetQuorumRotationInfo`: the request consumed by the builder. -/
structure CGetQuorumRotationInfo where
  baseBlockHashesNb : Nat
  baseBlockHashes : List Nat
  blockRequestHash : Nat
deriving DecidableEq, Repr

/-- `CQuorumRotationInfo`: the response out-parameter of
`BuildQuorumRotationInfo`, mutated field by field as the C++ code does. -/
structure CQuorumRotationInfo where
  creationHeight : Int
  quorumSnapshotAtHMinusC : CQuorumSnapshot
  quorumSnapshotAtHMinus2C : CQuorumSnapshot
  quorumSnapshotAtHMinus3C : CQuorumSnapshot
  mnListDiffTip : MnListDiff
  mnListDiffAtHMinusC : MnListDiff
  mnListDiffAtHMinus2C : MnListDiff
  mnListDiffAtHMinus3C : MnListDiff
deriving DecidableEq, Repr

/-- The persistent-store namespace prefix for quorum snapshots
(`static const std::string DB_QUORUM_SNAPSHOT = "llmq_S"`). -/
def DB_QUORUM_SNAPSHOT : String := "llmq_S"

/-- `::SerializeHash(std::make_pair(llmqType, blockHash))`: the
collision-resistant cache key derived deterministically from the quorum
type and the block hash; modelled by the injective pairing on `Nat`. -/
def serializeHashPair (llmqType : Nat) (blockHash : Nat) : Nat :=
  Nat.pair llmqType blockHash

/-- The mutable state of `CQuorumSnapshotManager`: the in-memory
`quorumSnapshotCache` (an `unordered_map` keyed by the snapshot hash) and
the persistent `evoDb` (keyed by the namespaced pair). -/
structure CQuorumSnapshotManager where
  quorumSnapshotCache : Nat → Option CQuorumSnapshot
  evoDb : String × Nat → Option CQuorumSnapshot

/-- `std::unordered_map::emplace`: inserts `(k, v)` only when no entry with
key `k` is present; an existing entry is left unchanged (no overwrite). -/
def mapEmplace (m : Nat → Option CQuorumSnapshot) (k : Nat) (v : CQuorumSnapshot) :
    Nat → Option CQuorumSnapshot :=
  fun k2 => if k2 = k then some ((m k).getD v) else m k2

/-- `CQuorumSnapshotManager::GetSnapshotForBlock`: look up the cache first;
on a cache miss read `evoDb` under the `DB_QUORUM_SNAPSHOT` namespace and,
on a hit, populate the cache; a miss in both is `none`.  Returns the
optional snapshot together with the (possibly updated) manager state. -/
def CQuorumSnapshotManager.GetSnapshotForBlock (st : CQuorumSnapshotManager)
    (llmqType : Nat) (pindex : BlockRef) :
    Option CQuorumSnapshot × CQuorumSnapshotManager :=
  let snapshotHash := serializeHashPair llmqType pindex.hash
  match st.quorumSnapshotCache snapshotHash with
  | some snapshot => (some snapshot, st)
  | none =>
    match st.evoDb (DB_QUORUM_SNAPSHOT, snapshotHash) with
    | some snapshot =>
      (some snapshot,
        { st with quorumSnapshotCache := mapEmplace st.quorumSnapshotCache snapshotHash snapshot })
    | none => (none, st)

/-- `CQuorumSnapshotManager::StoreSnapshotForBlock`: `evoDb.Write` replaces
the persisted value under the namespaced key, then the cache entry is
`emplace`d (inserted only if absent). -/
def CQuorumSnapshotManager.StoreSnapshotForBlock (st : CQuorumSnapshotManager)
    (llmqType : Nat) (pindex : BlockRef) (snapshot : CQuorumSnapshot) :
    CQuorumSnapshotManager :=
  let snapshotHash := serializeHashPair llmqType pindex.hash
  { quorumSnapshotCache := mapEmplace st.quorumSnapshotCache snapshotHash snapshot,
    evoDb := fun k =>
      if k = (DB_QUORUM_SNAPSHOT, snapshotHash) then some snapshot else st.evoDb k }

/-- Insert a block into a height-ascending list, keeping it ascending;
used to model `std::sort` by `nHeight` below. -/
def insertByHeight (b : BlockRef) : List BlockRef → List BlockRef
  | [] => [b]
  | c :: rest => if b.height ≤ c.height then b :: c :: rest else c :: insertByHeight b rest

/-- `std::sort(baseBlockIndexes.begin(), .end(), a.nHeight < b.nHeight)`:
sort the resolved base blocks ascending by height (insertion sort; the C++
comparator induces the same ascending-by-height order). -/
def sortByHeight : List BlockRef → List BlockRef
  | [] => []
  | b :: rest => insertByHeight b (sortByHeight rest)

/-- The external collaborators `BuildQuorumRotationInfo` consumes, read
under `cs_main`: the chain index (`::ChainActive()`, `LookupBlockIndex`,
`CBlockIndex::GetAncestor`), the external diff builder
`BuildSimplifiedMNListDiff` (returning the diff or an error string), the
configured InstantSend LLMQ type with its `dkgInterval`, and the snapshot
manager state. -/
structure Env where
  genesis : Option BlockRef
  tip : Option BlockRef
  lookup : Nat → Option BlockRef
  contains : BlockRef → Bool
  ancestor : BlockRef → Int → Option BlockRef
  buildDiff : Nat → Nat → Except String MnListDiff
  llmqTypeInstantSend : Nat
  cycleLength : Int
  snapshotManager : CQuorumSnapshotManager

/-- The base-block resolution loop of `BuildQuorumRotationInfo` (lines
110–121): resolve each hash via `LookupBlockIndex`, failing on an unknown
block or one outside the active chain. -/
def resolveBaseBlockHashes (env : Env) : List Nat → Except String (List BlockRef)
  | [] => Except.ok []
  | blockHash :: rest =>
    match env.lookup blockHash with
    | none => Except.error ("block " ++ toString blockHash ++ " not found")
    | some blockIndex =>
      if env.contains blockIndex then
        Except.map (fun l => blockIndex :: l) (resolveBaseBlockHashes env rest)
      else
        Except.error ("block " ++ toString blockHash ++ " is not in the active chain")

/-- Lines 100–125 of `BuildQuorumRotationInfo`: with no base hashes the
genesis block is the single base block, otherwise every hash is resolved
and checked against the active chain and the result sorted ascending by
height. -/
def resolveBaseBlockIndexes (env : Env) (request : CGetQuorumRotationInfo) :
    Except String (List BlockRef) :=
  if request.baseBlockHashesNb = 0 then
    match env.genesis with
    | none => Except.error ("genesis block not found")
    | some blockIndex => Except.ok [blockIndex]
  else
    Except.map sortByHeight (resolveBaseBlockHashes env request.baseBlockHashes)

/-- `baseBlockIndexes.back()`: the hash of the last (highest, once sorted)
base block.  The C++ call is only reached with a non-empty vector; the `0`
default is never used on those paths. -/
def lastBaseBlockHash (baseBlockIndexes : List BlockRef) : Nat :=
  match baseBlockIndexes.getLast? with
  | none => 0
  | some b => b.hash

/-- `GetLastBaseBlockHash`: starting from the all-zero hash, walk the base
block list; stop at the first entry higher than `blockIndex`, otherwise
remember the entry's hash.  Returns the last remembered hash. -/
def GetLastBaseBlockHash (baseBlockIndexes : List BlockRef) (blockIndex : BlockRef) : Nat :=
  go baseBlockIndexes 0
where
  /-- The loop of `GetLastBaseBlockHash`, with the running `hash` value. -/
  go : List BlockRef → Nat → Nat
  | [], hash => hash
  | baseBlock :: rest, hash =>
    if baseBlock.height > blockIndex.height then hash else go rest baseBlock.hash

/-- The outcome of `BuildQuorumRotationInfo`: the returned `bool`, the
`response` and `errorRet` out-parameters as left by the call, and the
snapshot manager state after the three `GetSnapshotForBlock` calls. -/
structure BuildResult where
  ok : Bool
  response : CQuorumRotationInfo
  errorRet : String
  snapshotManager : CQuorumSnapshotManager

/-- `BuildQuorumRotationInfo` (lines 81–211 of `snapshot.cpp`), with the
`response`/`errorRet` out-parameters threaded explicitly.  Every early
`return false` leaves the fields written so far in `response`; the final
`return true` leaves `errorRet` untouched. -/
def BuildQuorumRotationInfo (env : Env) (request : CGetQuorumRotationInfo)
    (response : CQuorumRotationInfo) (errorRet : String) : BuildResult :=
  if request.baseBlockHashesNb > 4 then
    ⟨false, response, "invalid requested baseBlockHashesNb", env.snapshotManager⟩
  else if request.baseBlockHashesNb ≠ request.baseBlockHashes.length then
    ⟨false, response, "missmatch requested baseBlockHashesNb and size(baseBlockHashes)",
      env.snapshotManager⟩
  else
    match resolveBaseBlockIndexes env request with
    | Except.error e => ⟨false, response, e, env.snapshotManager⟩
    | Except.ok baseBlockIndexes =>
      match env.tip with
      | none => ⟨false, response, "tip block not found", env.snapshotManager⟩
      | some tipBlockIndex =>
        match env.buildDiff (lastBaseBlockHash baseBlockIndexes) tipBlockIndex.hash with
        | Except.error e => ⟨false, response, e, env.snapshotManager⟩
        | Except.ok diffTip =>
          let response := { response with mnListDiffTip := diffTip }
          match env.lookup request.blockRequestHash with
          | none => ⟨false, response, "block not found", env.snapshotManager⟩
          | some blockIndex =>
            match env.ancestor blockIndex
                (blockIndex.height - Int.tmod blockIndex.height env.cycleLength) with
            | none => ⟨false, response, "Can not find block H", env.snapshotManager⟩
            | some hBlockIndex =>
              let response := { response with creationHeight := hBlockIndex.height }
              match env.ancestor tipBlockIndex (hBlockIndex.height - env.cycleLength) with
              | none => ⟨false, response, "Can not find block H-C", env.snapshotManager⟩
              | some pBlockHMinusCIndex =>
                match env.ancestor pBlockHMinusCIndex
                    (hBlockIndex.height - 2 * env.cycleLength) with
                | none => ⟨false, response, "Can not find block H-2C", env.snapshotManager⟩
                | some pBlockHMinus2CIndex =>
                  match env.ancestor pBlockHMinusCIndex
                      (hBlockIndex.height - 3 * env.cycleLength) with
                  | none => ⟨false, response, "Can not find block H-3C", env.snapshotManager⟩
                  | some pBlockHMinus3CIndex =>
                    match env.buildDiff
                        (GetLastBaseBlockHash baseBlockIndexes pBlockHMinusCIndex)
                        pBlockHMinusCIndex.hash with
                    | Except.error e => ⟨false, response, e, env.snapshotManager⟩
                    | Except.ok diffC =>
                      let response := { response with mnListDiffAtHMinusC := diffC }
                      match env.snapshotManager.GetSnapshotForBlock
                          env.llmqTypeInstantSend pBlockHMinusCIndex with
                      | (none, st1) =>
                        ⟨false, response, "Can not find quorum snapshot at H-C", st1⟩
                      | (some snapshotHMinusC, st1) =>
                        let response :=
                          { response with quorumSnapshotAtHMinusC := snapshotHMinusC }
                        match env.buildDiff
                            (GetLastBaseBlockHash baseBlockIndexes pBlockHMinus2CIndex)
                            pBlockHMinus2CIndex.hash with
                        | Except.error e => ⟨false, response, e, st1⟩
                        | Except.ok diff2C =>
                          let response := { response with mnListDiffAtHMinus2C := diff2C }
                          match st1.GetSnapshotForBlock
                              env.llmqTypeInstantSend pBlockHMinus2CIndex with
                          | (none, st2) =>
                            ⟨false, response, "Can not find quorum snapshot at H-C", st2⟩
                          | (some snapshotHMinus2C, st2) =>
                            let response :=
                              { response with quorumSnapshotAtHMinus2C := snapshotHMinus2C }
                            match env.buildDiff
                                (GetLastBaseBlockHash baseBlockIndexes pBlockHMinus3CIndex)
                                pBlockHMinus3CIndex.hash with
                            | Except.error e => ⟨false, response, e, st2⟩
                            | Except.ok diff3C =>
                              let response :=
                                { response with mnListDiffAtHMinus3C := diff3C }
                              match st2.GetSnapshotForBlock
                                  env.llmqTypeInstantSend pBlockHMinus3CIndex with
                              | (none, st3) =>
                                ⟨false, response, "Can not find quorum snapshot at H-C", st3⟩
                              | (some snapshotHMinus3C, st3) =>
                                let response :=
                                  { response with
                                    quorumSnapshotAtHMinus3C := snapshotHMinus3C }
                                ⟨true, response, errorRet, st3⟩

/-! ### Concrete instances

A linear chain used to exercise the definitions on closed inputs: the block
at height `h` has hash `1000 + h`, the tip is at height 100, the DKG cycle
length is 24 (the `llmq_60_75` InstantSend rotation interval). -/

/-- The block at height `h` of the concrete linear demo chain. -/
def blockAt (h : Nat) : BlockRef := ⟨1000 + h, (h : Int)⟩

/-- A concrete non-empty snapshot. -/
def demoSnapshot : CQuorumSnapshot := ⟨[true, false, true], 0, [1]⟩

/-- A second concrete snapshot, different from `demoSnapshot`. -/
def demoSnapshot2 : CQuorumSnapshot := ⟨[false], 2, []⟩

/-- A snapshot manager whose persistent store holds a snapshot for every
key and whose cache starts empty. -/
def demoManager : CQuorumSnapshotManager where
  quorumSnapshotCache := fun _ => none
  evoDb := fun _ => some demoSnapshot

/-- The ancestor function of the demo chain: the ancestor of `b` at height
`h` exists for `0 ≤ h ≤ b.height` and is the linear chain's block there. -/
def demoAncestor (b : BlockRef) (h : Int) : Option BlockRef :=
  if 0 ≤ h ∧ h ≤ b.height then some ⟨(1000 + h).toNat, h⟩ else none

/-- The demo environment: linear 0..100 chain, cycle length 24, every
block's snapshot persisted, diff building always succeeding. -/
def demoEnv : Env where
  genesis := some (blockAt 0)
  tip := some (blockAt 100)
  lookup := fun h => if 1000 ≤ h ∧ h ≤ 1100 then some ⟨h, (h : Int) - 1000⟩ else none
  contains := fun b => decide (1000 ≤ b.hash ∧ b.hash ≤ 1100)
  ancestor := demoAncestor
  buildDiff := fun a b => Except.ok ⟨a, b, 7⟩
  llmqTypeInstantSend := 5
  cycleLength := 24
  snapshotManager := demoManager

/-- An all-default response value, as a caller would pass it. -/
def response0 : CQuorumRotationInfo :=
  ⟨0, ⟨[], 0, []⟩, ⟨[], 0, []⟩, ⟨[], 0, []⟩, ⟨0, 0, 0⟩, ⟨0, 0, 0⟩, ⟨0, 0, 0⟩, ⟨0, 0, 0⟩⟩

/-- A request with no base hashes targeting the block at height 100. -/
def request0 : CGetQuorumRotationInfo := ⟨0, [], 1100⟩

/-- A manager whose cache already holds `demoSnapshot` under the key for
quorum type 5 and the block at height 72, over an empty persistent store. -/
def warmManager : CQuorumSnapshotManager where
  quorumSnapshotCache := fun k =>
    if k = serializeHashPair 5 1072 then some demoSnapshot else none
  evoDb := fun _ => none

/-- A short variant of the demo chain whose tip is at height 10: the target
cycle start `H` is at height 0, so resolving `H−C` at height `−24` fails. -/
def env5 : Env := { demoEnv with tip := some (blockAt 10) }

/-- A request with no base hashes targeting the block at height 10. -/
def request5 : CGetQuorumRotationInfo := ⟨0, [], 1010⟩

/-- A caller-supplied response with a sentinel `creationHeight` of 5 (so a
write of the computed creation height is observable). -/
def response5 : CQuorumRotationInfo := { response0 with creationHeight := 5 }

/-- A manager persisting a snapshot only for the block at height 72 (the
demo chain's `H−C`), with nothing at heights 48 (`H−2C`) or 24 (`H−3C`). -/
def manager6 : CQuorumSnapshotManager where
  quorumSnapshotCache := fun _ => none
  evoDb := fun k =>
    if k = (DB_QUORUM_SNAPSHOT, serializeHashPair 5 1072) then some demoSnapshot else none

/-- The demo environment over `manager6`: every chain step succeeds, but the
snapshot fetch at `H−2C` misses. -/
def env6 : Env := { demoEnv with snapshotManager := manager6 }

/-- The demo environment where the target block (hash 1100) is NOT in the
active chain (a side-fork block); every other block is contained. -/
def env10 : Env := { demoEnv with contains := fun b => b.hash ≠ 1100 }

/-- `env10` with the target considered part of the active chain again. -/
def env10b : Env := { env10 with contains := fun _ => true }

/-- A request with one base hash (the genesis block) targeting hash 1100. -/
def request10 : CGetQuorumRotationInfo := ⟨1, [1000], 1100⟩

/-- The last block of the longest prefix of `l` whose entries all have
height at most `blockIndex`'s: exactly the entry whose hash the loop of
`GetLastBaseBlockHash` remembers last. -/
def lastQualifying (blockIndex : BlockRef) : List BlockRef → Option BlockRef
  | [] => none
  | b :: rest =>
    if b.height > blockIndex.height then none
    else
      match lastQualifying blockIndex rest with
      | none => some b
      | some r => some r

theorem getLastBaseBlockHash_go_eq (blockIndex : BlockRef) (l : List BlockRef) (acc : Nat) :
    GetLastBaseBlockHash.go blockIndex l acc
      = (match lastQualifying blockIndex l with
         | none => acc
         | some a => a.hash) := by
  induction l generalizing acc with
  | nil => rfl
  | cons b rest ih =>
    simp only [GetLastBaseBlockHash.go, lastQualifying]
    by_cases h : b.height > blockIndex.height
    · simp [h]
    · simp only [if_neg h]
      rw [ih]
      cases lastQualifying blockIndex rest <;> simp

theorem getLastBaseBlockHash_eq_lastQualifying (l : List BlockRef) (blockIndex : BlockRef) :
    GetLastBaseBlockHash l blockIndex
      = (match lastQualifying blockIndex l with
         | none => 0
         | some a => a.hash) :=
  getLastBaseBlockHash_go_eq blockIndex l 0

theorem lastQualifying_mem {blockIndex : BlockRef} {l : List BlockRef} {a : BlockRef}
    (h : lastQualifying blockIndex l = some a) :
    a ∈ l ∧ a.height ≤ blockIndex.height := by
  induction l with
  | nil => simp [lastQualifying] at h
  | cons b rest ih =>
    simp only [lastQualifying] at h
    by_cases hb : b.height > blockIndex.height
    · simp [hb] at h
    · simp only [if_neg hb] at h
      rcases hr : lastQualifying blockIndex rest with _ | r
      · rw [hr] at h
        cases h
        exact ⟨List.mem_cons_self _ _, le_of_not_lt hb⟩
      · rw [hr] at h
        cases h
        obtain ⟨hm, hh⟩ := ih hr
        exact ⟨List.mem_cons_of_mem _ hm, hh⟩

theorem lastQualifying_isSome_of_mem
    {blockIndex : BlockRef} {l : List BlockRef}
    (hs : List.Sorted (fun x y : BlockRef => x.height ≤ y.height) l)
    {e : BlockRef} (he : e ∈ l) (hq : e.height ≤ blockIndex.height) :
    ∃ a, lastQualifying blockIndex l = some a := by
  induction l with
  | nil => cases he
  | cons b rest ih =>
    rw [List.sorted_cons] at hs
    have hb : ¬ b.height > blockIndex.height := by
      rcases List.mem_cons.mp he with rfl | hmem
      · exact not_lt.mpr hq
      · exact not_lt.mpr (le_trans (hs.1 e hmem) hq)
    simp only [lastQualifying, if_neg hb]
    cases lastQualifying blockIndex rest <;> exact ⟨_, rfl⟩

theorem lastQualifying_maximal
    {blockIndex : BlockRef} {l : List BlockRef}
    (hs : List.Sorted (fun x y : BlockRef => x.height ≤ y.height) l)
    {a : BlockRef} (ha : lastQualifying blockIndex l = some a) :
    ∀ e ∈ l, e.height ≤ blockIndex.height → e.height ≤ a.height := by
  induction l with
  | nil => simp [lastQualifying] at ha
  | cons b rest ih =>
    rw [List.sorted_cons] at hs
    intro e he hq
    simp only [lastQualifying] at ha
    by_cases hb : b.height > blockIndex.height
    · simp [hb] at ha
    · simp only [if_neg hb] at ha
      rcases hr : lastQualifying blockIndex rest with _ | r
      · rw [hr] at ha
        cases ha
        rcases List.mem_cons.mp he with rfl | hmem
        · exact le_refl _
        · obtain ⟨w, hw⟩ := lastQualifying_isSome_of_mem hs.2 hmem hq
          rw [hw] at hr
          cases hr
      · rw [hr] at ha
        cases ha
        rcases List.mem_cons.mp he with rfl | hmem
        · exact hs.1 a (lastQualifying_mem hr).1
        · exact ih hs.2 hr e hmem hq

theorem lastQualifying_monotone
    {l : List BlockRef}
    (hs : List.Sorted (fun x y : BlockRef => x.height ≤ y.height) l)
    {bLow bHigh : BlockRef} (hb : bLow.height ≤ bHigh.height)
    {aLow : BlockRef} (ha : lastQualifying bLow l = some aLow) :
    ∃ aHigh, lastQualifying bHigh l = some aHigh ∧ aLow.height ≤ aHigh.height := by
  induction l with
  | nil => simp [lastQualifying] at ha
  | cons b rest ih =>
    rw [List.sorted_cons] at hs
    simp only [lastQualifying] at ha ⊢
    by_cases h1 : b.height > bLow.height
    · simp [h1] at ha
    · have h2 : ¬ b.height > bHigh.height := not_lt.mpr (le_trans (not_lt.mp h1) hb)
      simp only [if_neg h1] at ha
      simp only [if_neg h2]
      rcases hr : lastQualifying bLow rest with _ | rLow
      · rw [hr] at ha
        cases ha
        rcases hr2 : lastQualifying bHigh rest with _ | rHigh
        · exact ⟨aLow, rfl, le_refl _⟩
        · exact ⟨rHigh, rfl, hs.1 rHigh (lastQualifying_mem hr2).1⟩
      · rw [hr] at ha
        cases ha
        obtain ⟨rHigh, hrh, hle⟩ := ih hs.2 hr
        rw [hrh]
        exact ⟨rHigh, rfl, hle⟩

theorem build_ok_char (env : Env) (request : CGetQuorumRotationInfo)
    (response : CQuorumRotationInfo) (errorRet : String)
    (ok : Bool) (resp : CQuorumRotationInfo) (err : String) (stOut : CQuorumSnapshotManager)
    (hr : BuildQuorumRotationInfo env request response errorRet = ⟨ok, resp, err, stOut⟩)
    (hok : ok = true) :
    ∃ baseBlockIndexes tipBlockIndex blockIndex hBlockIndex
      pBlockHMinusCIndex pBlockHMinus2CIndex pBlockHMinus3CIndex
      snapC snap2C snap3C st1 st2,
      resolveBaseBlockIndexes env request = Except.ok baseBlockIndexes
      ∧ env.tip = some tipBlockIndex
      ∧ env.lookup request.blockRequestHash = some blockIndex
      ∧ env.ancestor blockIndex
          (blockIndex.height - Int.tmod blockIndex.height env.cycleLength) = some hBlockIndex
      ∧ env.ancestor tipBlockIndex (hBlockIndex.height - env.cycleLength)
          = some pBlockHMinusCIndex
      ∧ env.ancestor pBlockHMinusCIndex (hBlockIndex.height - 2 * env.cycleLength)
          = some pBlockHMinus2CIndex
      ∧ env.ancestor pBlockHMinusCIndex (hBlockIndex.height - 3 * env.cycleLength)
          = some pBlockHMinus3CIndex
      ∧ env.snapshotManager.GetSnapshotForBlock env.llmqTypeInstantSend pBlockHMinusCIndex
          = (some snapC, st1)
      ∧ st1.GetSnapshotForBlock env.llmqTypeInstantSend pBlockHMinus2CIndex
          = (some snap2C, st2)
      ∧ st2.GetSnapshotForBlock env.llmqTypeInstantSend pBlockHMinus3CIndex
          = (some snap3C, stOut)
      ∧ env.buildDiff (GetLastBaseBlockHash baseBlockIndexes pBlockHMinusCIndex)
          pBlockHMinusCIndex.hash = Except.ok resp.mnListDiffAtHMinusC
      ∧ env.buildDiff (GetLastBaseBlockHash baseBlockIndexes pBlockHMinus2CIndex)
          pBlockHMinus2CIndex.hash = Except.ok resp.mnListDiffAtHMinus2C
      ∧ env.buildDiff (GetLastBaseBlockHash baseBlockIndexes pBlockHMinus3CIndex)
          pBlockHMinus3CIndex.hash = Except.ok resp.mnListDiffAtHMinus3C
      ∧ resp.creationHeight = hBlockIndex.height
      ∧ resp.quorumSnapshotAtHMinusC = snapC
      ∧ resp.quorumSnapshotAtHMinus2C = snap2C
      ∧ resp.quorumSnapshotAtHMinus3C = snap3C := by
  subst hok
  unfold BuildQuorumRotationInfo at hr
  split at hr
  · simp at hr
  split at hr
  · simp at hr
  split at hr
  · simp at hr
  rename_i baseBlockIndexes hbase
  split at hr
  · simp at hr
  rename_i tipBlockIndex htip
  split at hr
  · simp at hr
  rename_i diffTip hdifftip
  split at hr
  · simp at hr
  rename_i blockIndex hlookup
  split at hr
  · simp at hr
  rename_i hBlockIndex hanc
  split at hr
  · simp at hr
  rename_i pC hancC
  split at hr
  · simp at hr
  rename_i p2C hanc2C
  split at hr
  · simp at hr
  rename_i p3C hanc3C
  split at hr
  · simp at hr
  rename_i diffC hdiffC
  split at hr
  · simp at hr
  rename_i snapC st1 hgetC
  split at hr
  · simp at hr
  rename_i diff2C hdiff2C
  split at hr
  · simp at hr
  rename_i snap2C st2 hget2C
  split at hr
  · simp at hr
  rename_i diff3C hdiff3C
  split at hr
  · simp at hr
  rename_i snap3C st3 hget3C
  cases hr
  refine ⟨baseBlockIndexes, tipBlockIndex, blockIndex, hBlockIndex, pC, p2C, p3C,
    snapC, snap2C, snap3C, st1, st2,
    hbase, htip, hlookup, hanc, hancC, hanc2C, hanc3C, hgetC, hget2C, hget3C,
    ?_, ?_, ?_, ?_, ?_, ?_, ?_⟩
  · simpa using hdiffC
  · simpa using hdiff2C
  · simpa using hdiff3C
  · simp
  · simp
  · simp
  · simp

/-- C1: on every successful build, the returned `creationHeight` equals
`target.height − (target.height mod cycleLength)` where `target` is the
block resolved from `blockRequestHash`, and is divisible by `cycleLength`
(assuming `ancestor` returns a block of the requested height whenever it
returns a block). -/
theorem creationHeight_cycle_aligned (env : Env) (request : CGetQuorumRotationInfo)
    (response : CQuorumRotationInfo) (errorRet : String) (target : BlockRef)
    (hanc : ∀ b h c, env.ancestor b h = some c → c.height = h)
    (htarget : env.lookup request.blockRequestHash = some target)
    (hok : (BuildQuorumRotationInfo env request response errorRet).ok = true) :
    (BuildQuorumRotationInfo env request response errorRet).response.creationHeight
      = target.height - Int.tmod target.height env.cycleLength
    ∧ env.cycleLength ∣
        (BuildQuorumRotationInfo env request response errorRet).response.creationHeight := by
  obtain ⟨_, _, blockIndex, hB, _, _, _, _, _, _, _, _,
      _, _, hlookup, hH, _, _, _, _, _, _, _, _, _, hch, _, _, _⟩ :=
    build_ok_char env request response errorRet
      (BuildQuorumRotationInfo env request response errorRet).ok
      (BuildQuorumRotationInfo env request response errorRet).response
      (BuildQuorumRotationInfo env request response errorRet).errorRet
      (BuildQuorumRotationInfo env request response errorRet).snapshotManager
      rfl hok
  rw [htarget] at hlookup
  cases hlookup
  rw [hch, hanc _ _ _ hH]
  refine ⟨rfl, ⟨Int.tdiv target.height env.cycleLength, ?_⟩⟩
  have hid := Int.tdiv_add_tmod target.height env.cycleLength
  linarith

/-- C1 witness: the demo chain at target height 100 with cycle length 24
yields `creationHeight = 100 − (100 mod 24) = 96`, divisible by 24. -/
theorem creationHeight_cycle_aligned_witness :
    (BuildQuorumRotationInfo demoEnv request0 response0 "").response.creationHeight
      = (⟨1100, 100⟩ : BlockRef).height
          - Int.tmod (⟨1100, 100⟩ : BlockRef).height demoEnv.cycleLength
    ∧ demoEnv.cycleLength ∣
        (BuildQuorumRotationInfo demoEnv request0 response0 "").response.creationHeight :=
  creationHeight_cycle_aligned demoEnv request0 response0 "" ⟨1100, 100⟩
    (by
      intro b h c hc
      have hc2 : demoAncestor b h = some c := hc
      unfold demoAncestor at hc2
      split at hc2
      · cases hc2; rfl
      · cases hc2)
    (by decide) (by decide)

/-- C2: on every successful build, the three blocks whose snapshots and
per-height diffs are returned sit at heights exactly
`creationHeight − cycleLength`, `creationHeight − 2·cycleLength` and
`creationHeight − 3·cycleLength` (assuming `ancestor` returns a block of
the requested height whenever it returns a block). -/
theorem returned_snapshot_heights_exact (env : Env) (request : CGetQuorumRotationInfo)
    (response : CQuorumRotationInfo) (errorRet : String)
    (hanc : ∀ b h c, env.ancestor b h = some c → c.height = h)
    (hok : (BuildQuorumRotationInfo env request response errorRet).ok = true) :
    ∃ baseBlockIndexes bC b2C b3C st1 st2,
      resolveBaseBlockIndexes env request = Except.ok baseBlockIndexes
      ∧ bC.height
          = (BuildQuorumRotationInfo env request response errorRet).response.creationHeight
              - env.cycleLength
      ∧ b2C.height
          = (BuildQuorumRotationInfo env request response errorRet).response.creationHeight
              - 2 * env.cycleLength
      ∧ b3C.height
          = (BuildQuorumRotationInfo env request response errorRet).response.creationHeight
              - 3 * env.cycleLength
      ∧ env.snapshotManager.GetSnapshotForBlock env.llmqTypeInstantSend bC
          = (some ((BuildQuorumRotationInfo env request response
              errorRet).response.quorumSnapshotAtHMinusC), st1)
      ∧ st1.GetSnapshotForBlock env.llmqTypeInstantSend b2C
          = (some ((BuildQuorumRotationInfo env request response
              errorRet).response.quorumSnapshotAtHMinus2C), st2)
      ∧ st2.GetSnapshotForBlock env.llmqTypeInstantSend b3C
          = (some ((BuildQuorumRotationInfo env request response
              errorRet).response.quorumSnapshotAtHMinus3C),
            (BuildQuorumRotationInfo env request response errorRet).snapshotManager)
      ∧ env.buildDiff (GetLastBaseBlockHash baseBlockIndexes bC) bC.hash
          = Except.ok
              ((BuildQuorumRotationInfo env request response
                errorRet).response.mnListDiffAtHMinusC)
      ∧ env.buildDiff (GetLastBaseBlockHash baseBlockIndexes b2C) b2C.hash
          = Except.ok
              ((BuildQuorumRotationInfo env request response
                errorRet).response.mnListDiffAtHMinus2C)
      ∧ env.buildDiff (GetLastBaseBlockHash baseBlockIndexes b3C) b3C.hash
          = Except.ok
              ((BuildQuorumRotationInfo env request response
                errorRet).response.mnListDiffAtHMinus3C) := by
  obtain ⟨baseBlockIndexes, _, _, hB, pC, p2C, p3C, snapC, snap2C, snap3C, st1, st2,
      hbase, _, _, hH, hancC, hanc2C, hanc3C, hgetC, hget2C, hget3C,
      hdC, hd2C, hd3C, hch, hsC, hs2C, hs3C⟩ :=
    build_ok_char env request response errorRet
      (BuildQuorumRotationInfo env request response errorRet).ok
      (BuildQuorumRotationInfo env request response errorRet).response
      (BuildQuorumRotationInfo env request response errorRet).errorRet
      (BuildQuorumRotationInfo env request response errorRet).snapshotManager
      rfl hok
  refine ⟨baseBlockIndexes, pC, p2C, p3C, st1, st2, hbase, ?_, ?_, ?_, ?_, ?_, ?_,
    hdC, hd2C, hd3C⟩
  · rw [hch, hanc _ _ _ hancC]
  · rw [hch, hanc _ _ _ hanc2C]
  · rw [hch, hanc _ _ _ hanc3C]
  · rw [hsC]; exact hgetC
  · rw [hs2C]; exact hget2C
  · rw [hs3C]; exact hget3C

/-- C2 witness: on the demo chain the returned blocks are at heights
`96 − 24 = 72`, `96 − 48 = 48` and `96 − 72 = 24`. -/
theorem returned_snapshot_heights_exact_witness :
    ∃ baseBlockIndexes bC b2C b3C st1 st2,
      resolveBaseBlockIndexes demoEnv request0 = Except.ok baseBlockIndexes
      ∧ bC.height
          = (BuildQuorumRotationInfo demoEnv request0 response0 "").response.creationHeight
              - demoEnv.cycleLength
      ∧ b2C.height
          = (BuildQuorumRotationInfo demoEnv request0 response0 "").response.creationHeight
              - 2 * demoEnv.cycleLength
      ∧ b3C.height
          = (BuildQuorumRotationInfo demoEnv request0 response0 "").response.creationHeight
              - 3 * demoEnv.cycleLength
      ∧ demoEnv.snapshotManager.GetSnapshotForBlock demoEnv.llmqTypeInstantSend bC
          = (some ((BuildQuorumRotationInfo demoEnv request0 response0
              "").response.quorumSnapshotAtHMinusC), st1)
      ∧ st1.GetSnapshotForBlock demoEnv.llmqTypeInstantSend b2C
          = (some ((BuildQuorumRotationInfo demoEnv request0 response0
              "").response.quorumSnapshotAtHMinus2C), st2)
      ∧ st2.GetSnapshotForBlock demoEnv.llmqTypeInstantSend b3C
          = (some ((BuildQuorumRotationInfo demoEnv request0 response0
              "").response.quorumSnapshotAtHMinus3C),
            (BuildQuorumRotationInfo demoEnv request0 response0 "").snapshotManager)
      ∧ demoEnv.buildDiff (GetLastBaseBlockHash baseBlockIndexes bC) bC.hash
          = Except.ok
              ((BuildQuorumRotationInfo demoEnv request0 response0
                "").response.mnListDiffAtHMinusC)
      ∧ demoEnv.buildDiff (GetLastBaseBlockHash baseBlockIndexes b2C) b2C.hash
          = Except.ok
              ((BuildQuorumRotationInfo demoEnv request0 response0
                "").response.mnListDiffAtHMinus2C)
      ∧ demoEnv.buildDiff (GetLastBaseBlockHash baseBlockIndexes b3C) b3C.hash
          = Except.ok
              ((BuildQuorumRotationInfo demoEnv request0 response0
                "").response.mnListDiffAtHMinus3C) :=
  returned_snapshot_heights_exact demoEnv request0 response0 ""
    (by
      intro b h c hc
      have hc2 : demoAncestor b h = some c := hc
      unfold demoAncestor at hc2
      split at hc2
      · cases hc2; rfl
      · cases hc2)
    (by decide)

/-- C3: on every successful build, the `H−C` block is resolved as an
ancestor of the chain tip, and the `H−2C` / `H−3C` blocks are resolved as
ancestors of the previously resolved `H−C` block; the snapshots returned
are those fetched at the blocks obtained through this traversal. -/
theorem resolution_traversal_order (env : Env) (request : CGetQuorumRotationInfo)
    (response : CQuorumRotationInfo) (errorRet : String)
    (hok : (BuildQuorumRotationInfo env request response errorRet).ok = true) :
    ∃ tipBlockIndex target hBlockIndex bC b2C b3C st1 st2,
      env.tip = some tipBlockIndex
      ∧ env.lookup request.blockRequestHash = some target
      ∧ env.ancestor target (target.height - Int.tmod target.height env.cycleLength)
          = some hBlockIndex
      ∧ env.ancestor tipBlockIndex (hBlockIndex.height - env.cycleLength) = some bC
      ∧ env.ancestor bC (hBlockIndex.height - 2 * env.cycleLength) = some b2C
      ∧ env.ancestor bC (hBlockIndex.height - 3 * env.cycleLength) = some b3C
      ∧ env.snapshotManager.GetSnapshotForBlock env.llmqTypeInstantSend bC
          = (some ((BuildQuorumRotationInfo env request response
              errorRet).response.quorumSnapshotAtHMinusC), st1)
      ∧ st1.GetSnapshotForBlock env.llmqTypeInstantSend b2C
          = (some ((BuildQuorumRotationInfo env request response
              errorRet).response.quorumSnapshotAtHMinus2C), st2)
      ∧ st2.GetSnapshotForBlock env.llmqTypeInstantSend b3C
          = (some ((BuildQuorumRotationInfo env request response
              errorRet).response.quorumSnapshotAtHMinus3C),
            (BuildQuorumRotationInfo env request response errorRet).snapshotManager) := by
  obtain ⟨_, tipBlockIndex, blockIndex, hB, pC, p2C, p3C, snapC, snap2C, snap3C, st1, st2,
      _, htip, hlookup, hH, hancC, hanc2C, hanc3C, hgetC, hget2C, hget3C,
      _, _, _, _, hsC, hs2C, hs3C⟩ :=
    build_ok_char env request response errorRet
      (BuildQuorumRotationInfo env request response errorRet).ok
      (BuildQuorumRotationInfo env request response errorRet).response
      (BuildQuorumRotationInfo env request response errorRet).errorRet
      (BuildQuorumRotationInfo env request response errorRet).snapshotManager
      rfl hok
  refine ⟨tipBlockIndex, blockIndex, hB, pC, p2C, p3C, st1, st2,
    htip, hlookup, hH, hancC, hanc2C, hanc3C, ?_, ?_, ?_⟩
  · rw [hsC]; exact hgetC
  · rw [hs2C]; exact hget2C
  · rw [hs3C]; exact hget3C

/-- C3 witness: the traversal equations instantiated on the demo chain. -/
theorem resolution_traversal_order_witness :
    ∃ tipBlockIndex target hBlockIndex bC b2C b3C st1 st2,
      demoEnv.tip = some tipBlockIndex
      ∧ demoEnv.lookup request0.blockRequestHash = some target
      ∧ demoEnv.ancestor target
          (target.height - Int.tmod target.height demoEnv.cycleLength) = some hBlockIndex
      ∧ demoEnv.ancestor tipBlockIndex (hBlockIndex.height - demoEnv.cycleLength) = some bC
      ∧ demoEnv.ancestor bC (hBlockIndex.height - 2 * demoEnv.cycleLength) = some b2C
      ∧ demoEnv.ancestor bC (hBlockIndex.height - 3 * demoEnv.cycleLength) = some b3C
      ∧ demoEnv.snapshotManager.GetSnapshotForBlock demoEnv.llmqTypeInstantSend bC
          = (some ((BuildQuorumRotationInfo demoEnv request0 response0
              "").response.quorumSnapshotAtHMinusC), st1)
      ∧ st1.GetSnapshotForBlock demoEnv.llmqTypeInstantSend b2C
          = (some ((BuildQuorumRotationInfo demoEnv request0 response0
              "").response.quorumSnapshotAtHMinus2C), st2)
      ∧ st2.GetSnapshotForBlock demoEnv.llmqTypeInstantSend b3C
          = (some ((BuildQuorumRotationInfo demoEnv request0 response0
              "").response.quorumSnapshotAtHMinus3C),
            (BuildQuorumRotationInfo demoEnv request0 response0 "").snapshotManager) :=
  resolution_traversal_order demoEnv request0 response0 "" (by decide)

/-- C4: over a height-ascending base list, `GetLastBaseBlockHash` returns
the all-zero hash when no entry's height is at most the target's; otherwise
it returns the hash of a qualifying entry of maximal height; and the
selected entry's height is monotone in the target's height. -/
theorem GetLastBaseBlockHash_spec (l : List BlockRef) (b bLow bHigh : BlockRef)
    (hs : List.Sorted (fun x y : BlockRef => x.height ≤ y.height) l) :
    ((∀ e ∈ l, b.height < e.height) → GetLastBaseBlockHash l b = 0)
    ∧ ((∃ e ∈ l, e.height ≤ b.height) →
        ∃ a ∈ l, a.height ≤ b.height ∧ GetLastBaseBlockHash l b = a.hash
          ∧ ∀ e ∈ l, e.height ≤ b.height → e.height ≤ a.height)
    ∧ (bLow.height ≤ bHigh.height →
        ∀ aLow, lastQualifying bLow l = some aLow →
          ∃ aHigh, lastQualifying bHigh l = some aHigh
            ∧ aLow.height ≤ aHigh.height ∧ GetLastBaseBlockHash l bHigh = aHigh.hash) := by
  refine ⟨?_, ?_, ?_⟩
  · intro hall
    rw [getLastBaseBlockHash_eq_lastQualifying]
    cases l with
    | nil => rfl
    | cons c rest =>
      have hc := hall c (List.mem_cons_self c rest)
      simp [lastQualifying, hc]
  · rintro ⟨e, he, hq⟩
    obtain ⟨a, ha⟩ := lastQualifying_isSome_of_mem hs he hq
    obtain ⟨ham, hah⟩ := lastQualifying_mem ha
    refine ⟨a, ham, hah, ?_, lastQualifying_maximal hs ha⟩
    rw [getLastBaseBlockHash_eq_lastQualifying, ha]
  · intro hlh aLow ha
    obtain ⟨aHigh, hah, hle⟩ := lastQualifying_monotone hs hlh ha
    refine ⟨aHigh, hah, hle, ?_⟩
    rw [getLastBaseBlockHash_eq_lastQualifying, hah]

/-- C4 witness: on the sorted base list with (hash 10, height 5) and
(hash 20, height 8), a target at height 6 selects hash 10 (its height 5
being maximal below 6), and raising the target height to 9 moves the
selection up to height 8. -/
theorem GetLastBaseBlockHash_spec_witness :
    ((∀ e ∈ [(⟨10, 5⟩ : BlockRef), ⟨20, 8⟩], (⟨99, 6⟩ : BlockRef).height < e.height) →
        GetLastBaseBlockHash [(⟨10, 5⟩ : BlockRef), ⟨20, 8⟩] ⟨99, 6⟩ = 0)
    ∧ ((∃ e ∈ [(⟨10, 5⟩ : BlockRef), ⟨20, 8⟩], e.height ≤ (⟨99, 6⟩ : BlockRef).height) →
        ∃ a ∈ [(⟨10, 5⟩ : BlockRef), ⟨20, 8⟩],
          a.height ≤ (⟨99, 6⟩ : BlockRef).height
          ∧ GetLastBaseBlockHash [(⟨10, 5⟩ : BlockRef), ⟨20, 8⟩] ⟨99, 6⟩ = a.hash
          ∧ ∀ e ∈ [(⟨10, 5⟩ : BlockRef), ⟨20, 8⟩],
              e.height ≤ (⟨99, 6⟩ : BlockRef).height → e.height ≤ a.height)
    ∧ ((⟨99, 6⟩ : BlockRef).height ≤ (⟨98, 9⟩ : BlockRef).height →
        ∀ aLow, lastQualifying ⟨99, 6⟩ [(⟨10, 5⟩ : BlockRef), ⟨20, 8⟩] = some aLow →
          ∃ aHigh, lastQualifying ⟨98, 9⟩ [(⟨10, 5⟩ : BlockRef), ⟨20, 8⟩] = some aHigh
            ∧ aLow.height ≤ aHigh.height
            ∧ GetLastBaseBlockHash [(⟨10, 5⟩ : BlockRef), ⟨20, 8⟩] ⟨98, 9⟩ = aHigh.hash) :=
  GetLastBaseBlockHash_spec [⟨10, 5⟩, ⟨20, 8⟩] ⟨99, 6⟩ ⟨99, 6⟩ ⟨98, 9⟩
    (by simp [List.sorted_cons])

/-- C5 counterexample: on a chain of height 10 with cycle length 24 the
`H−C` resolution fails, yet the caller-visible response object already
carries the computed `creationHeight` (0, overwriting the caller's
sentinel 5) and the assembled tip diff — so a failed build does leave
partially assembled results in the response out-parameter. -/
theorem build_failure_leaves_partial_response_cex :
    (BuildQuorumRotationInfo env5 request5 response5 "").ok = false
    ∧ (BuildQuorumRotationInfo env5 request5 response5 "").errorRet = "Can not find block H-C"
    ∧ (BuildQuorumRotationInfo env5 request5 response5 "").response.creationHeight = 0
    ∧ response5.creationHeight = 5
    ∧ (BuildQuorumRotationInfo env5 request5 response5 "").response.mnListDiffTip
        = ⟨1000, 1010, 7⟩
    ∧ response5.mnListDiffTip = ⟨0, 0, 0⟩ := by decide

/-- C5 (amended): the builder stops at the first error — on failure the
final-stage field `quorumSnapshotAtHMinus3C` (written only on the fully
successful path) is exactly as the caller passed it, and on success the
`errorRet` out-parameter is untouched. -/
theorem build_failfast (env : Env) (request : CGetQuorumRotationInfo)
    (response : CQuorumRotationInfo) (errorRet : String) :
    ((BuildQuorumRotationInfo env request response errorRet).ok = false →
      (BuildQuorumRotationInfo env request response errorRet).response.quorumSnapshotAtHMinus3C
        = response.quorumSnapshotAtHMinus3C)
    ∧ ((BuildQuorumRotationInfo env request response errorRet).ok = true →
      (BuildQuorumRotationInfo env request response errorRet).errorRet = errorRet) := by
  unfold BuildQuorumRotationInfo
  repeat' split
  all_goals simp

/-- C5 witness: on the failing short chain, the final-stage snapshot field
still holds the caller's original (empty) value. -/
theorem build_failfast_witness :
    (BuildQuorumRotationInfo env5 request5 response5 "").response.quorumSnapshotAtHMinus3C
      = response5.quorumSnapshotAtHMinus3C :=
  (build_failfast env5 request5 response5 "").1 (by decide)

/-- C6: when the snapshot at `H−2C` (height 48) is the missing one — the
`H−C` snapshot at height 72 exists and was already copied into the
response — the error message still reads "Can not find quorum snapshot at
H-C": the message does not identify which height's snapshot was missing. -/
theorem snapshot_error_not_height_tagged :
    (BuildQuorumRotationInfo env6 request0 response0 "").ok = false
    ∧ (BuildQuorumRotationInfo env6 request0 response0 "").errorRet
        = "Can not find quorum snapshot at H-C"
    ∧ (BuildQuorumRotationInfo env6 request0 response0 "").response.quorumSnapshotAtHMinusC
        = demoSnapshot
    ∧ (manager6.GetSnapshotForBlock 5 (blockAt 72)).1 = some demoSnapshot
    ∧ (manager6.GetSnapshotForBlock 5 (blockAt 48)).1 = none := by decide

/-- C7 counterexample: with `demoSnapshot` already cached under the key for
(type 5, block hash 1072), storing the different `demoSnapshot2` for that
pair leaves the cache entry at the old value — `emplace` does not
overwrite, refuting the claim that the cache maps the key to the newly
stored snapshot unconditionally. -/
theorem store_does_not_overwrite_cache_cex :
    ((warmManager.StoreSnapshotForBlock 5 (blockAt 72) demoSnapshot2).quorumSnapshotCache
        (serializeHashPair 5 1072) = some demoSnapshot)
    ∧ demoSnapshot ≠ demoSnapshot2 := by
  constructor
  · rfl
  · decide

/-- C7 (amended): after `store(qt, ref, snap)` the persistent store maps
the namespaced key to `snap` unconditionally; the cache entry is inserted
only when the key was absent — a pre-existing cache entry is retained
unchanged. -/
theorem StoreSnapshotForBlock_spec (st : CQuorumSnapshotManager) (llmqType : Nat)
    (pindex : BlockRef) (snapshot : CQuorumSnapshot) :
    ((st.StoreSnapshotForBlock llmqType pindex snapshot).evoDb
        (DB_QUORUM_SNAPSHOT, serializeHashPair llmqType pindex.hash) = some snapshot)
    ∧ (st.quorumSnapshotCache (serializeHashPair llmqType pindex.hash) = none →
        (st.StoreSnapshotForBlock llmqType pindex snapshot).quorumSnapshotCache
          (serializeHashPair llmqType pindex.hash) = some snapshot)
    ∧ ∀ v, st.quorumSnapshotCache (serializeHashPair llmqType pindex.hash) = some v →
        (st.StoreSnapshotForBlock llmqType pindex snapshot).quorumSnapshotCache
          (serializeHashPair llmqType pindex.hash) = some v := by
  refine ⟨?_, ?_, ?_⟩
  · simp [CQuorumSnapshotManager.StoreSnapshotForBlock]
  · intro h
    simp [CQuorumSnapshotManager.StoreSnapshotForBlock, mapEmplace, h]
  · intro v h
    simp [CQuorumSnapshotManager.StoreSnapshotForBlock, mapEmplace, h]

/-- C7 witness: over the warm cache holding `demoSnapshot`, storing
`demoSnapshot2` persists the new value but leaves the cached one. -/
theorem StoreSnapshotForBlock_spec_witness :
    ((warmManager.StoreSnapshotForBlock 5 (blockAt 72) demoSnapshot2).evoDb
        (DB_QUORUM_SNAPSHOT, serializeHashPair 5 (blockAt 72).hash) = some demoSnapshot2)
    ∧ (warmManager.StoreSnapshotForBlock 5 (blockAt 72) demoSnapshot2).quorumSnapshotCache
        (serializeHashPair 5 (blockAt 72).hash) = some demoSnapshot :=
  ⟨(StoreSnapshotForBlock_spec warmManager 5 (blockAt 72) demoSnapshot2).1,
   (StoreSnapshotForBlock_spec warmManager 5 (blockAt 72) demoSnapshot2).2.2
     demoSnapshot (by rfl)⟩

/-- C8 counterexample: from a warm cache whose entry for the key differs
from the stored snapshot, `store(qt, ref, snap)` followed by
`get(qt, ref)` returns the stale cached value, not `snap` — refuting the
round-trip claim for an arbitrary warm cache. -/
theorem store_then_get_warm_cache_cex :
    (((warmManager.StoreSnapshotForBlock 5 (blockAt 72) demoSnapshot2).GetSnapshotForBlock
        5 (blockAt 72)).1 = some demoSnapshot)
    ∧ demoSnapshot ≠ demoSnapshot2 := by
  constructor
  · rfl
  · decide

/-- C8 (amended): `store(qt, ref, snap)` followed by `get(qt, ref)`
returns `snap` when the cache held no entry for the key before the store
(cold cache), and also from a warm cache provided the entry already held
was `snap` itself; with a different pre-existing entry, `get` returns that
entry instead. -/
theorem store_then_get_roundtrip (st : CQuorumSnapshotManager) (llmqType : Nat)
    (pindex : BlockRef) (snapshot : CQuorumSnapshot)
    (h : st.quorumSnapshotCache (serializeHashPair llmqType pindex.hash) = none
        ∨ st.quorumSnapshotCache (serializeHashPair llmqType pindex.hash) = some snapshot) :
    ((st.StoreSnapshotForBlock llmqType pindex snapshot).GetSnapshotForBlock
        llmqType pindex).1 = some snapshot := by
  rcases h with h | h <;>
    simp [CQuorumSnapshotManager.StoreSnapshotForBlock,
      CQuorumSnapshotManager.GetSnapshotForBlock, mapEmplace, h]

/-- C8 witness: the round trip from the cold `demoManager` cache returns
the snapshot just stored. -/
theorem store_then_get_roundtrip_witness :
    (((demoManager.StoreSnapshotForBlock 5 (blockAt 72) demoSnapshot2).GetSnapshotForBlock
        5 (blockAt 72)).1 = some demoSnapshot2) :=
  store_then_get_roundtrip demoManager 5 (blockAt 72) demoSnapshot2 (Or.inl rfl)

theorem resolveBaseBlockHashes_contains_congr (env : Env) (c2 : BlockRef → Bool)
    (l : List Nat)
    (h : ∀ hsh ∈ l, ∀ b, env.lookup hsh = some b → c2 b = env.contains b) :
    resolveBaseBlockHashes { env with contains := c2 } l = resolveBaseBlockHashes env l := by
  induction l with
  | nil => rfl
  | cons x rest ih =>
    have hl : ({ env with contains := c2 } : Env).lookup = env.lookup := rfl
    simp only [resolveBaseBlockHashes, hl]
    cases hx : env.lookup x with
    | none => rfl
    | some b =>
      have hc : c2 b = env.contains b := h x (List.mem_cons_self x rest) b hx
      dsimp only
      rw [hc, ih (fun hsh hm b2 hb => h hsh (List.mem_cons_of_mem x hm) b2 hb)]

/-- C10: the active-chain membership check is applied only to the resolved
base blocks — replacing `contains` by any function agreeing on the blocks
resolved from `baseBlockHashes` (in particular one declaring the target
block a side-fork block) leaves the entire build outcome unchanged, so the
target's membership is never consulted and `H` is computed from the
target block's own ancestry. -/
theorem build_contains_checked_only_for_base (env : Env) (c2 : BlockRef → Bool)
    (request : CGetQuorumRotationInfo) (response : CQuorumRotationInfo) (errorRet : String)
    (h : ∀ hsh ∈ request.baseBlockHashes, ∀ b, env.lookup hsh = some b
        → c2 b = env.contains b) :
    BuildQuorumRotationInfo { env with contains := c2 } request response errorRet
      = BuildQuorumRotationInfo env request response errorRet := by
  have hres : resolveBaseBlockIndexes { env with contains := c2 } request
      = resolveBaseBlockIndexes env request := by
    unfold resolveBaseBlockIndexes
    rw [resolveBaseBlockHashes_contains_congr env c2 _ h]
  unfold BuildQuorumRotationInfo
  rw [hres]

/-- C10 witness: with the target block (hash 1100) declared outside the
active chain and the lone base block (genesis) inside it, the build
succeeds identically to the all-contained environment — no
`BlockNotInActiveChain` failure is raised for the target. -/
theorem build_contains_checked_only_for_base_witness :
    BuildQuorumRotationInfo env10b request10 response0 ""
      = BuildQuorumRotationInfo env10 request10 response0 ""
    ∧ env10.contains (blockAt 100) = false
    ∧ (BuildQuorumRotationInfo env10 request10 response0 "").ok = true
    ∧ env10.lookup request10.blockRequestHash = some (blockAt 100) := by
  refine ⟨?_, by decide, by decide, by decide⟩
  exact build_contains_checked_only_for_base env10 (fun _ => true) request10 response0 ""
    (by
      intro hsh hm b hb
      have hx : hsh = 1000 := by simpa [request10] using hm
      subst hx
      rw [show env10.lookup 1000 = some (⟨1000, 0⟩ : BlockRef) from by decide] at hb
      injection hb with hb2
      subst hb2
      decide)

end LlmqSnapshot
